import Mathlib

/-!
Verification of the instance provisioning and launch engine of the
wise0wl-launcher repository (src/src-tauri/src/minecraft.rs), as a shallow
embedding in Lean 4.  Rust strings are Lean strings; `PathBuf::join` is
modelled by `pathJoin` with the abstract separator "/"; the compile-time
`cfg!` platform tests are modelled by an explicit `Platform` record threaded
through the functions; the filesystem is modelled by an existence predicate
`String → Bool`; network outcomes are modelled by explicit outcome functions.
String primitives used by the Rust code (`str::replace`, `str::split`,
`str::ends_with`, `Vec::join`) are re-implemented by structural recursion so
that every definition evaluates inside the kernel.
-/

namespace Wise0wl

/-- Model of `PathBuf::join` (display form, with an abstract "/" separator). -/
def pathJoin (a b : String) : String := a ++ "/" ++ b

/-- Fuel-indexed worker for `rustReplace`; the fuel starts at the length of
the subject string, and every step consumes at least one character. -/
def replaceCharsAux (pat rep : List Char) : Nat → List Char → List Char
  | 0, s => s
  | _ + 1, [] => []
  | fuel + 1, c :: rest =>
    if pat ≠ [] ∧ pat.isPrefixOf (c :: rest) then
      rep ++ replaceCharsAux pat rep fuel (List.drop pat.length (c :: rest))
    else
      c :: replaceCharsAux pat rep fuel rest

/-- Model of Rust `str::replace`: replace every non-overlapping occurrence of
`pat`, scanning left to right.  (The Rust code only ever calls it with
non-empty patterns.) -/
def rustReplace (s pat rep : String) : String :=
  ⟨replaceCharsAux pat.data rep.data s.data.length s.data⟩

/-- Model of Rust `str::split(sep)` over characters (keeps empty pieces, never
returns an empty list, exactly like the Rust iterator). -/
def splitCharsAux (sep : Char) : List Char → List Char → List (List Char)
  | [], acc => [acc.reverse]
  | c :: rest, acc =>
    if c == sep then acc.reverse :: splitCharsAux sep rest []
    else splitCharsAux sep rest (c :: acc)

/-- Model of `file_path.split('/').last().unwrap_or(file_path)`: the base
filename of a "/"-separated archive entry name. -/
def lastPathComponent (s : String) : String :=
  ⟨(List.getLast? (splitCharsAux '/' s.data [])).getD s.data⟩

/-- Model of Rust `str::ends_with`. -/
def rustEndsWith (s suffix : String) : Bool :=
  List.isSuffixOf suffix.data s.data

/-- Model of Rust `str::split_whitespace`. -/
def splitWhitespaceModel (s : String) : List String :=
  ((splitCharsAux ' ' s.data []).map (fun cs => String.mk cs)).filter
    (fun t => t ≠ "")

/-- Model of Rust `Vec::join` on strings (used for the classpath). -/
def joinSep (sep : String) : List String → String
  | [] => ""
  | [x] => x
  | x :: y :: xs => x ++ sep ++ joinSep sep (y :: xs)

/-- Model of `&hash[0..2]` (the asset hashes are ASCII hex strings). -/
def strTake (s : String) (n : Nat) : String := ⟨s.data.take n⟩

/-- Runtime platform context; in the Rust source this is compiled in through
`cfg!(target_os = ...)` / `cfg!(target_arch = ...)` tests. -/
structure Platform where
  os : String
  arch : String
deriving DecidableEq

/-- `OsRule` from minecraft.rs (the `version` field is parsed but never
consulted by `should_apply_rule`). -/
structure OsRule where
  name : Option String
  version : Option String
  arch : Option String
deriving DecidableEq

/-- `Rule` from minecraft.rs; the `features` HashMap is modelled as an
association list (all recognised flags combine by `&&`, so iteration order
is irrelevant). -/
structure Rule where
  action : String
  operating_system : Option OsRule
  features : Option (List (String × Bool))
deriving DecidableEq

/-- `Artifact` from minecraft.rs. -/
structure Artifact where
  path : Option String
  url : String
  size : Nat
  sha1 : String
deriving DecidableEq

/-- `LibraryDownloads` from minecraft.rs; the classifier map is modelled as an
association list. -/
structure LibraryDownloads where
  artifact : Option Artifact
  classifiers : Option (List (String × Artifact))
deriving DecidableEq

/-- `Library` from minecraft.rs (`extract.exclude` is parsed but unused). -/
structure Library where
  name : String
  downloads : Option LibraryDownloads
  rules : Option (List Rule)
  natives : Option (List (String × String))
  extract : Option (List String)
deriving DecidableEq

/-- `AssetIndex` reference from minecraft.rs. -/
structure AssetIndex where
  id : String
  total_size : Nat
  url : String
deriving DecidableEq

/-- `Downloads` block from minecraft.rs. -/
structure Downloads where
  client : Artifact
  server : Option Artifact
  client_mappings : Option Artifact
  server_mappings : Option Artifact
deriving DecidableEq

/-- The subset of `serde_json::Value` shapes that the argument processing
inspects: a string, an array, or anything else. -/
inductive JValue where
  | str : String → JValue
  | arr : List JValue → JValue
  | other : JValue

/-- `Argument` from minecraft.rs: a plain literal or a rule-gated value. -/
inductive Argument where
  | plain : String → Argument
  | withRules : List Rule → JValue → Argument

/-- `Arguments` from minecraft.rs. -/
structure Arguments where
  game : List Argument
  jvm : List Argument

/-- `VersionDetails` from minecraft.rs. -/
structure VersionDetails where
  id : String
  version_type : String
  main_class : String
  minecraft_arguments : Option String
  arguments : Option Arguments
  libraries : List Library
  downloads : Downloads
  asset_index : AssetIndex
  assets : String
  release_time : String
  time : String

/-- `LaunchOptions` from lib.rs (paths as strings, memory in MiB). -/
structure LaunchOptions where
  modpack_id : String
  game_dir : String
  java_path : Option String
  max_memory : Option Nat
  min_memory : Option Nat
  width : Option Nat
  height : Option Nat
  access_token : Option String
  uuid : Option String
  username : Option String

/-- The fields of `Modpack` (modpack.rs) consulted by the launch path. -/
structure Modpack where
  id : String
  minecraft_version : String
  forge_version : Option String
  fabric_version : Option String
  neoforge_version : Option String

/-- `matches_os_name` from minecraft.rs. -/
def matches_os_name (plat : Platform) (name : String) : Bool :=
  match name with
  | "windows" => plat.os == "windows"
  | "linux" => plat.os == "linux"
  | "osx" => plat.os == "macos"
  | _ => false

/-- `matches_arch` from minecraft.rs. -/
def matches_arch (plat : Platform) (arch : String) : Bool :=
  match arch with
  | "x86" => plat.arch == "x86"
  | "x64" => plat.arch == "x86_64"
  | "arm64" => plat.arch == "aarch64"
  | _ => false

/-- One step of the features loop inside `should_apply_rule`: the six
recognised feature flags conjoin `should_apply && !required`; any other key
falls into the wildcard arm and leaves `should_apply` unchanged. -/
def applyFeature (should_apply : Bool) (feature : String) (required : Bool) :
    Bool :=
  match feature with
  | "is_demo_user" => should_apply && (required == false)
  | "has_custom_resolution" => should_apply && !required
  | "has_quick_plays_support" => should_apply && !required
  | "is_quick_play_singleplayer" => should_apply && !required
  | "is_quick_play_multiplayer" => should_apply && !required
  | "is_quick_play_realms" => should_apply && !required
  | _ => should_apply

/-- The OS part of the per-rule `should_apply` computation inside
`should_apply_rule`: starting from `true`, conjoin the OS name and arch
conditions when present. -/
def ruleOsMatches (plat : Platform) (rule : Rule) : Bool :=
  match rule.operating_system with
  | none => true
  | some osr =>
    let s1 :=
      match osr.name with
      | none => true
      | some n => true && matches_os_name plat n
    match osr.arch with
    | none => s1
    | some a => s1 && matches_arch plat a

/-- The per-rule `should_apply` computation inside `should_apply_rule`: OS
name and arch conditions (when present) and then the features loop. -/
def ruleMatches (plat : Platform) (rule : Rule) : Bool :=
  match rule.features with
  | none => ruleOsMatches plat rule
  | some fs =>
    fs.foldl (fun acc p => applyFeature acc p.1 p.2) (ruleOsMatches plat rule)

/-- The `for rule in rules` loop of `should_apply_rule`: first matching
`allow` rule returns `true`, first matching `disallow` rule returns `false`,
and falling off the end returns `false`. -/
def applyRulesLoop (plat : Platform) : List Rule → Bool
  | [] => false
  | r :: rs =>
    if r.action == "allow" && ruleMatches plat r then true
    else if r.action == "disallow" && ruleMatches plat r then false
    else applyRulesLoop plat rs

/-- `should_apply_rule` from minecraft.rs. -/
def should_apply_rule (plat : Platform) (rules : List Rule) : Bool :=
  if rules.isEmpty then true else applyRulesLoop plat rules

/-- Modelled from the spec (section 4.2): the first rule in list order whose
conditions match decides the result, `allow` giving `true` and anything else
(`disallow`) giving `false`; no matching rule gives `false`. -/
def ruleSpecResult (plat : Platform) (rules : List Rule) : Bool :=
  match rules.find? (fun r => ruleMatches plat r) with
  | some r => r.action == "allow"
  | none => false

/-- `should_include_library` from minecraft.rs. -/
def should_include_library (plat : Platform) (lib : Library) : Bool :=
  match lib.rules with
  | some rules => should_apply_rule plat rules
  | none => true

/-- `process_jvm_argument` from minecraft.rs. -/
def process_jvm_argument (opts : LaunchOptions) (arg : String) : String :=
  rustReplace arg "${natives_directory}" (pathJoin opts.game_dir "natives")

/-- `should_skip_jvm_argument` from minecraft.rs. -/
def should_skip_jvm_argument (plat : Platform) (arg : String) : Bool :=
  if plat.os != "macos" then
    match arg with
    | "-XstartOnFirstThread" => true
    | _ => false
  else
    false

/-- `process_game_argument` from minecraft.rs.  The asset index id is read
from the version JSON on disk with a double fallback to the modpack's
minecraft version (read failure or parse failure); that read is modelled by
the `assetIndexId : Option String` parameter.  `minecraftDir` is the
launcher's `minecraft_dir`. -/
def process_game_argument (opts : LaunchOptions) (modpack : Modpack)
    (minecraftDir : String) (assetIndexId : Option String) (arg : String) :
    String :=
  let asset_index_name := assetIndexId.getD modpack.minecraft_version
  rustReplace (rustReplace (rustReplace (rustReplace (rustReplace (rustReplace
    (rustReplace (rustReplace (rustReplace (rustReplace (rustReplace
    (rustReplace (rustReplace (rustReplace arg
      "${auth_player_name}" (opts.username.getD "Player"))
      "${version_name}" modpack.minecraft_version)
      "${game_directory}" opts.game_dir)
      "${assets_root}" (pathJoin minecraftDir "assets"))
      "${assets_index_name}" asset_index_name)
      "${auth_uuid}" (opts.uuid.getD "00000000-0000-0000-0000-000000000000"))
      "${auth_access_token}" (opts.access_token.getD "token"))
      "${clientid}" "clientid")
      "${auth_xuid}" "xuid")
      "${user_type}" "msa")
      "${version_type}" "release")
      "${resolution_width}" (Nat.repr (opts.width.getD 1280)))
      "${resolution_height}" (Nat.repr (opts.height.getD 720)))
      "${natives_directory}" (pathJoin opts.game_dir "natives")

/-- The body of the library loop of `build_classpath`: the classpath entry
contributed by one library — its on-disk artifact path when the library
passes the rules, has an artifact with a `path`, and the file exists. -/
def classpathEntry (plat : Platform) (ex : String → Bool)
    (minecraftDir : String) (lib : Library) : Option String :=
  if should_include_library plat lib then
    match lib.downloads with
    | some dl =>
      match dl.artifact with
      | some art =>
        match art.path with
        | some p =>
          let library_path := pathJoin (pathJoin minecraftDir "libraries") p
          if ex library_path then some library_path else none
        | none => none
      | none => none
    | none => none
  else none

/-- `build_classpath` from minecraft.rs: the version's own client jar, then
every rule-passing library artifact path that exists on disk, in manifest
order, joined with ";" on Windows and ":" elsewhere.  `ex` is the
file-existence predicate modelling the filesystem. -/
def build_classpath (plat : Platform) (ex : String → Bool)
    (minecraftDir : String) (vd : VersionDetails) : String :=
  let version_jar :=
    pathJoin (pathJoin (pathJoin minecraftDir "versions") vd.id)
      (vd.id ++ ".jar")
  let parts := vd.libraries.foldl
    (fun acc lib => acc ++ (classpathEntry plat ex minecraftDir lib).toList)
    [version_jar]
  let separator := if plat.os == "windows" then ";" else ":"
  joinSep separator parts

/-- The strings contributed by one entry of `arguments.jvm` inside
`add_jvm_arguments` (rule gating, the `-XstartOnFirstThread` filter, and
`${natives_directory}` substitution). -/
def jvmArgStrings (plat : Platform) (opts : LaunchOptions) :
    Argument → List String
  | Argument.plain s =>
    if should_skip_jvm_argument plat s then []
    else [process_jvm_argument opts s]
  | Argument.withRules rules v =>
    if should_apply_rule plat rules then
      match v with
      | JValue.str s =>
        if should_skip_jvm_argument plat s then []
        else [process_jvm_argument opts s]
      | JValue.arr items =>
        items.filterMap (fun item =>
          match item with
          | JValue.str s =>
            if should_skip_jvm_argument plat s then none
            else some (process_jvm_argument opts s)
          | _ => none)
      | JValue.other => []
    else []

/-- `add_jvm_arguments` from minecraft.rs, returning the list of arguments it
pushes onto the command: memory flags, the version's JVM arguments, two
`-Djava.library.path` entries, then `-cp` and the classpath. -/
def add_jvm_arguments (plat : Platform) (ex : String → Bool)
    (minecraftDir : String) (vd : VersionDetails) (opts : LaunchOptions) :
    List String :=
  let args : List String := []
  let args :=
    match opts.max_memory with
    | some m => args ++ ["-Xmx" ++ Nat.repr m ++ "M"]
    | none => args
  let args :=
    match opts.min_memory with
    | some m => args ++ ["-Xms" ++ Nat.repr m ++ "M"]
    | none => args
  let args :=
    match vd.arguments with
    | some a => a.jvm.foldl (fun acc arg => acc ++ jvmArgStrings plat opts arg) args
    | none => args
  let libraries_path := pathJoin minecraftDir "libraries"
  let natives_dir := pathJoin opts.game_dir "natives"
  let args := args ++ ["-Djava.library.path=" ++ libraries_path]
  let args := args ++
    ["-Djava.library.path=" ++ libraries_path ++ ";" ++ natives_dir]
  args ++ ["-cp", build_classpath plat ex minecraftDir vd]

/-- The strings contributed by one entry of `arguments.game` inside
`add_game_arguments`. -/
def gameArgStrings (plat : Platform) (opts : LaunchOptions) (modpack : Modpack)
    (minecraftDir : String) (assetIndexId : Option String) :
    Argument → List String
  | Argument.plain s =>
    [process_game_argument opts modpack minecraftDir assetIndexId s]
  | Argument.withRules rules v =>
    if should_apply_rule plat rules then
      match v with
      | JValue.str s =>
        [process_game_argument opts modpack minecraftDir assetIndexId s]
      | JValue.arr items =>
        items.filterMap (fun item =>
          match item with
          | JValue.str s =>
            some (process_game_argument opts modpack minecraftDir assetIndexId s)
          | _ => none)
      | JValue.other => []
    else []

/-- `add_game_arguments` from minecraft.rs: the structured `arguments.game`
path when present, otherwise the legacy whitespace-split
`minecraftArguments` path. -/
def add_game_arguments (plat : Platform) (opts : LaunchOptions)
    (modpack : Modpack) (minecraftDir : String) (assetIndexId : Option String)
    (vd : VersionDetails) : List String :=
  match vd.arguments with
  | some a =>
    a.game.foldl
      (fun acc arg =>
        acc ++ gameArgStrings plat opts modpack minecraftDir assetIndexId arg)
      []
  | none =>
    match vd.minecraft_arguments with
    | some s =>
      (splitWhitespaceModel s).map
        (fun t => process_game_argument opts modpack minecraftDir assetIndexId t)
    | none => []

/-- The executable chosen by `verify_java`:
`java_path.as_ref().map(String::as_str).unwrap_or("java")`. -/
def verify_java_program (java_path : Option String) : String :=
  java_path.getD "java"

/-- `build_launch_command` from minecraft.rs: fails with
"Java path is required" when no Java path is configured, otherwise produces
the interpreter path and the ordered argument list (JVM arguments, main
class, game arguments). -/
def build_launch_command (plat : Platform) (ex : String → Bool)
    (minecraftDir : String) (opts : LaunchOptions) (modpack : Modpack)
    (vd : VersionDetails) (assetIndexId : Option String) :
    Except String (String × List String) :=
  match opts.java_path with
  | none => Except.error "Java path is required"
  | some java_path =>
    Except.ok (java_path,
      add_jvm_arguments plat ex minecraftDir vd opts
        ++ [vd.main_class]
        ++ add_game_arguments plat opts modpack minecraftDir assetIndexId vd)

/-- The `for attempt in 1..=3` retry loop inside `ensure_assets`, iterating
over the list of attempt numbers.  `outcome n` is the result of the n-th
download attempt.  Returns the final result, the attempts actually made, and
the backoff delays (in milliseconds) slept between attempts; the `[]` case
mirrors the `unreachable!()` after the Rust loop. -/
def retryGo (outcome : Nat → Except String Unit) :
    List Nat → List Nat → List Nat →
    Except String Unit × List Nat × List Nat
  | [], tried, delays => (Except.error "unreachable", tried, delays)
  | a :: rest, tried, delays =>
    match outcome a with
    | Except.ok _ => (Except.ok (), tried ++ [a], delays)
    | Except.error e =>
      if a == 3 then (Except.error e, tried ++ [a], delays)
      else retryGo outcome rest (tried ++ [a]) (delays ++ [100 * a])

/-- The per-item retry pipeline of `ensure_assets` /
`download_asset_with_retry`: attempts 1, 2, 3 with backoff `100ms * attempt`
after a failed non-final attempt. -/
def download_asset_retries (outcome : Nat → Except String Unit) :
    Except String Unit × List Nat × List Nat :=
  retryGo outcome [1, 2, 3] [] []

/-- The result-collection step of `ensure_assets` for one completed item:
a success bumps the `downloaded` counter, a failure appends exactly one
message to the failure list. -/
def processAssetItem (acc : Nat × List String) (result : Except String Unit) :
    Nat × List String :=
  match result with
  | Except.ok _ => (acc.1 + 1, acc.2)
  | Except.error e => (acc.1, acc.2 ++ [e])

/-- The aggregated error message built by `ensure_assets` when some assets
failed: total count, the first 10 messages, and a "more errors" suffix when
more than 10 failed. -/
def formatAssetFailures (failed : List String) : String :=
  let error_count := failed.length
  let reported_errors := failed.take 10
  let error_msg :=
    Nat.repr error_count ++ " assets failed to download. First "
      ++ Nat.repr reported_errors.length ++ " errors:"
  let error_msg :=
    reported_errors.foldl (fun m e => m ++ "\n  " ++ e) error_msg
  if error_count > 10 then
    error_msg ++ "\n  ... and " ++ Nat.repr (error_count - 10) ++ " more errors"
  else
    error_msg

/-- The final aggregation of `ensure_assets`: success when no failures were
collected, otherwise the formatted aggregate error. -/
def assetAggregateResult (failed : List String) : Except String Unit :=
  if failed.isEmpty then Except.ok () else Except.error (formatAssetFailures failed)

/-- The content-addressed target path `assets/objects/<hash[0:2]>/<hash>`
computed by `ensure_assets`. -/
def assetObjectPath (minecraftDir : String) (hash : String) : String :=
  pathJoin (pathJoin (pathJoin (pathJoin minecraftDir "assets") "objects")
    (strTake hash 2)) hash

/-- The download URL for one asset object. -/
def assetUrl (hash : String) : String :=
  "https://resources.download.minecraft.net/" ++ strTake hash 2 ++ "/" ++ hash

/-- The missing-work collection loop of `ensure_assets`: every index entry
(name, hash) whose target path is absent, in index order. -/
def missingAssets (ex : String → Bool) (minecraftDir : String)
    (objects : List (String × String)) : List (String × String × String) :=
  objects.foldl
    (fun acc p =>
      let asset_path := assetObjectPath minecraftDir p.2
      if ex asset_path then acc else acc ++ [(p.1, p.2, asset_path)])
    []

/-- The download phase of `ensure_assets` after the index is on disk: compute
the missing-work list; if it is empty return success immediately with zero
network requests; otherwise attempt every missing item (with per-item retry)
and aggregate.  Returns the list of URLs for which downloads were attempted
together with the overall result.  `outcome name n` is the n-th attempt's
result for the item `name`. -/
def ensure_assets_model (ex : String → Bool) (minecraftDir : String)
    (objects : List (String × String))
    (outcome : String → Nat → Except String Unit) :
    List String × Except String Unit :=
  let missing := missingAssets ex minecraftDir objects
  if missing.isEmpty then ([], Except.ok ())
  else
    let counts := missing.foldl
      (fun acc item =>
        processAssetItem acc (download_asset_retries (outcome item.1)).1)
      (0, [])
    (missing.map (fun item => assetUrl item.2.1), assetAggregateResult counts.2)

/-- The body of the library loop of `ensure_libraries`: the URL downloaded
for one library — present exactly when the library passes the rules, has an
artifact with a `path`, and the target `libraries/<path>` is absent from
disk. -/
def libraryMissingUrl (plat : Platform) (ex : String → Bool)
    (minecraftDir : String) (lib : Library) : Option String :=
  if should_include_library plat lib then
    match lib.downloads with
    | some dl =>
      match dl.artifact with
      | some art =>
        match art.path with
        | some p =>
          let library_path := pathJoin (pathJoin minecraftDir "libraries") p
          if ex library_path then none else some art.url
        | none => none
      | none => none
    | none => none
  else none

/-- The download-decision loop of `ensure_libraries`: the URLs downloaded are
exactly those of rule-passing libraries with an artifact path whose target
`libraries/<path>` is absent from disk. -/
def libraryMissingDownloads (plat : Platform) (ex : String → Bool)
    (minecraftDir : String) (libs : List Library) : List String :=
  libs.foldl
    (fun acc lib => acc ++ (libraryMissingUrl plat ex minecraftDir lib).toList)
    []

/-- The platform classifier key chosen by `ensure_native_libraries`. -/
def platformNativesKey (plat : Platform) : Option String :=
  if plat.os == "windows" then some "natives-windows"
  else if plat.os == "linux" then some "natives-linux"
  else if plat.os == "macos" then some "natives-macos"
  else none

/-- Association-list lookup modelling `HashMap::get`. -/
def alookup (m : List (String × α)) (k : String) : Option α :=
  match m with
  | [] => none
  | p :: rest => if p.1 == k then some p.2 else alookup rest k

/-- The archive path that `ensure_native_libraries` opens for one library:
for a rule-passing library whose `natives` map has an entry `native_path`
under the platform key, and whose classifier map has an entry for
`native_path`, the path is `libraries/<native_path>` — built from the natives
map VALUE, not from the classifier artifact's own `path` field. -/
def nativeArchivePath (plat : Platform) (minecraftDir : String)
    (lib : Library) : Option String :=
  if should_include_library plat lib then
    match lib.natives with
    | some natives =>
      match platformNativesKey plat with
      | some platform_key =>
        match alookup natives platform_key with
        | some native_path =>
          match lib.downloads with
          | some dl =>
            match dl.classifiers with
            | some classifiers =>
              match alookup classifiers native_path with
              | some _ =>
                some (pathJoin (pathJoin minecraftDir "libraries") native_path)
              | none => none
            | none => none
          | none => none
        | none => none
      | none => none
    | none => none
  else none

/-- The archives actually opened by `ensure_native_libraries`: the computed
archive paths that exist on disk, in library order. -/
def nativeArchivesOpened (plat : Platform) (ex : String → Bool)
    (minecraftDir : String) (libs : List Library) : List String :=
  libs.foldl
    (fun acc lib =>
      match nativeArchivePath plat minecraftDir lib with
      | some p => if ex p then acc ++ [p] else acc
      | none => acc)
    []

/-- `extract_native_library` from minecraft.rs, as the list of destination
paths written: every archive entry whose name ends in ".dll", ".so" or
".dylib" is written to the natives directory under its base filename. -/
def extract_native_library (entries : List String) (natives_dir : String) :
    List String :=
  entries.foldl
    (fun acc file_path =>
      if rustEndsWith file_path ".dll" || rustEndsWith file_path ".so"
          || rustEndsWith file_path ".dylib" then
        acc ++ [pathJoin natives_dir (lastPathComponent file_path)]
      else acc)
    []

/-! ### Helper lemmas -/

theorem foldl_append_toList {α β : Type} (f : α → Option β) :
    ∀ (l : List α) (acc : List β),
      l.foldl (fun acc x => acc ++ (f x).toList) acc = acc ++ l.filterMap f := by
  intro l
  induction l with
  | nil => intro acc; simp
  | cons x xs ih =>
    intro acc
    cases h : f x with
    | none => simp [List.foldl_cons, h, ih, List.filterMap_cons]
    | some b => simp [List.foldl_cons, h, ih, List.filterMap_cons]

theorem foldl_step_const {α β : Type} (step : List β → α → List β) :
    ∀ l : List α, (∀ (acc : List β) (x : α), x ∈ l → step acc x = acc) →
      ∀ acc, l.foldl step acc = acc := by
  intro l
  induction l with
  | nil => intro _ acc; rfl
  | cons x xs ih =>
    intro h acc
    rw [List.foldl_cons, h acc x (List.mem_cons_self x xs)]
    exact ih (fun a q hq => h a q (List.mem_cons_of_mem x hq)) acc

theorem foldl_appendIf {α β : Type} (p : α → Bool) (g : α → β) :
    ∀ (l : List α) (acc : List β),
      l.foldl (fun acc x => if p x then acc ++ [g x] else acc) acc
        = acc ++ (l.filter p).map g := by
  intro l
  induction l with
  | nil => intro acc; simp
  | cons x xs ih =>
    intro acc
    cases h : p x with
    | false => simp [List.foldl_cons, h, ih, List.filter_cons]
    | true => simp [List.foldl_cons, h, ih, List.filter_cons]

theorem foldl_appendList {α β : Type} (f : α → List β) :
    ∀ (l : List α) (acc : List β),
      l.foldl (fun acc x => acc ++ f x) acc = acc ++ l.flatMap f := by
  intro l
  induction l with
  | nil => intro acc; simp
  | cons x xs ih => intro acc; simp [List.foldl_cons, ih]

/-- Concatenation of a list of strings (left fold, empty seed). -/
def strConcat (l : List String) : String :=
  l.foldl (fun a b => a ++ b) ""

theorem strAppend_assoc (a b c : String) : a ++ b ++ c = a ++ (b ++ c) := by
  apply String.ext
  simp [String.data_append, List.append_assoc]

theorem strConcat_aux :
    ∀ (ys : List String) (a : String),
      ys.foldl (fun m e => m ++ e) a = a ++ strConcat ys := by
  intro ys
  induction ys with
  | nil => intro a; simp [strConcat, String.append_empty]
  | cons y ys ih =>
    intro a
    have h3 : strConcat (y :: ys) = y ++ strConcat ys := by
      simp only [strConcat, List.foldl_cons, String.empty_append]
      exact ih y
    rw [List.foldl_cons, ih (a ++ y), h3, strAppend_assoc]

theorem strConcat_cons (y : String) (ys : List String) :
    strConcat (y :: ys) = y ++ strConcat ys := by
  simp only [strConcat, List.foldl_cons, String.empty_append]
  exact strConcat_aux ys y

theorem foldl_strAppend (sep : String) :
    ∀ (l : List String) (base : String),
      l.foldl (fun m e => m ++ sep ++ e) base
        = base ++ strConcat (l.map (fun e => sep ++ e)) := by
  intro l
  induction l with
  | nil => intro base; simp [strConcat, String.append_empty]
  | cons x xs ih =>
    intro base
    rw [List.foldl_cons, ih (base ++ sep ++ x), List.map_cons, strConcat_cons]
    simp only [strAppend_assoc]

/-! ### Concrete fixtures used by witnesses and examples -/

def platLinux : Platform := { os := "linux", arch := "x86_64" }

def platWindows : Platform := { os := "windows", arch := "x86_64" }

def winAllowRule : Rule :=
  { action := "allow",
    operating_system := some { name := some "windows", version := none, arch := none },
    features := none }

def bogusFeatureRule : Rule :=
  { action := "allow", operating_system := none,
    features := some [("bogus_feature", true)] }

def demoDisallowRule : Rule :=
  { action := "disallow", operating_system := none,
    features := some [("is_demo_user", true)] }

/-- The six feature keys recognised by the features loop of
`should_apply_rule`. -/
def recognizedFeatures : List String :=
  ["is_demo_user", "has_custom_resolution", "has_quick_plays_support",
   "is_quick_play_singleplayer", "is_quick_play_multiplayer",
   "is_quick_play_realms"]

def optsSteve : LaunchOptions :=
  { modpack_id := "mp", game_dir := "gd", java_path := none,
    max_memory := none, min_memory := none, width := none, height := none,
    access_token := none, uuid := none, username := some "Steve" }

def optsDefaults : LaunchOptions :=
  { modpack_id := "mp", game_dir := "gd", java_path := none,
    max_memory := none, min_memory := none, width := none, height := none,
    access_token := none, uuid := none, username := none }

def optsCustomRes : LaunchOptions :=
  { optsDefaults with width := some 1920, height := some 1080 }

def mpk1201 : Modpack :=
  { id := "mp", minecraft_version := "1.20.1", forge_version := none,
    fabric_version := none, neoforge_version := none }

def libA : Library :=
  { name := "a",
    downloads := some
      { artifact := some { path := some "a.jar", url := "ua", size := 0, sha1 := "ha" },
        classifiers := none },
    rules := none, natives := none, extract := none }

def libB : Library :=
  { name := "b",
    downloads := some
      { artifact := some { path := some "b.jar", url := "ub", size := 0, sha1 := "hb" },
        classifiers := none },
    rules := none, natives := none, extract := none }

def vdBase : VersionDetails :=
  { id := "v", version_type := "release", main_class := "net.minecraft.client.main.Main",
    minecraft_arguments := none, arguments := none, libraries := [],
    downloads :=
      { client := { path := none, url := "cu", size := 0, sha1 := "cs" },
        server := none, client_mappings := none, server_mappings := none },
    asset_index := { id := "5", total_size := 0, url := "au" },
    assets := "5", release_time := "t", time := "t" }

def vdTwoLibs : VersionDetails :=
  { vdBase with libraries := [libA, libB] }

def artC7 : Artifact :=
  { path := some "org/lwjgl/real.jar", url := "u", size := 0, sha1 := "s" }

def libC7 : Library :=
  { name := "lwjgl",
    downloads := some { artifact := none, classifiers := some [("nkey", artC7)] },
    rules := none, natives := some [("natives-linux", "nkey")], extract := none }

def outcomeFailTwice : Nat → Except String Unit :=
  fun n => if n ≤ 2 then Except.error ("f" ++ Nat.repr n) else Except.ok ()

def outcomeAllFail : Nat → Except String Unit :=
  fun n => Except.error ("f" ++ Nat.repr n)

def failed15 : List String := (List.range 15).map (fun i => "m" ++ Nat.repr i)

/-! ### Rule engine lemmas -/

theorem ruleSpecResult_cons_pos (plat : Platform) (r : Rule) (rs : List Rule)
    (hm : ruleMatches plat r = true) :
    ruleSpecResult plat (r :: rs) = (r.action == "allow") := by
  simp [ruleSpecResult, List.find?_cons_of_pos, hm]

theorem ruleSpecResult_cons_neg (plat : Platform) (r : Rule) (rs : List Rule)
    (hm : ruleMatches plat r = false) :
    ruleSpecResult plat (r :: rs) = ruleSpecResult plat rs := by
  simp [ruleSpecResult, List.find?_cons_of_neg, hm]

theorem applyRulesLoop_eq_spec (plat : Platform) :
    ∀ rules : List Rule,
      (∀ r ∈ rules, r.action = "allow" ∨ r.action = "disallow") →
      applyRulesLoop plat rules = ruleSpecResult plat rules := by
  intro rules
  induction rules with
  | nil => intro _; rfl
  | cons r rs ih =>
    intro h
    have hr := h r (List.mem_cons_self r rs)
    have hrs : ∀ x ∈ rs, x.action = "allow" ∨ x.action = "disallow" :=
      fun x hx => h x (List.mem_cons_of_mem r hx)
    cases hm : ruleMatches plat r with
    | true =>
      rw [ruleSpecResult_cons_pos plat r rs hm]
      rcases hr with ha | ha <;> simp [applyRulesLoop, hm, ha]
    | false =>
      rw [ruleSpecResult_cons_neg plat r rs hm]
      simp only [applyRulesLoop, hm, Bool.and_false, Bool.false_eq_true,
        if_false]
      exact ih hrs

/-- C1: `should_apply_rule` returns `true` on an empty rule list; on a
non-empty list of allow/disallow rules it equals the spec's first-match
semantics: the first rule in list order whose conditions match decides the
result (`allow` ⇒ `true`, `disallow` ⇒ `false`), and if no rule matches the
result is `false`. -/
theorem c1_rule_list_evaluation :
    (∀ plat : Platform, should_apply_rule plat [] = true) ∧
    (∀ (plat : Platform) (rules : List Rule),
      rules ≠ [] →
      (∀ r ∈ rules, r.action = "allow" ∨ r.action = "disallow") →
      should_apply_rule plat rules = ruleSpecResult plat rules) := by
  refine ⟨fun _ => rfl, ?_⟩
  intro plat rules hne h
  cases rules with
  | nil => exact absurd rfl hne
  | cons r rs =>
    unfold should_apply_rule
    rw [if_neg (by simp)]
    exact applyRulesLoop_eq_spec plat (r :: rs) h

/-- Witness for C1 at a concrete input: a single allow-windows rule evaluated
on a Linux platform. -/
theorem c1_rule_list_evaluation_witness :
    ([winAllowRule] ≠ ([] : List Rule)) ∧
    (∀ r ∈ [winAllowRule], r.action = "allow" ∨ r.action = "disallow") ∧
    should_apply_rule platLinux [winAllowRule]
      = ruleSpecResult platLinux [winAllowRule] ∧
    ruleSpecResult platLinux [winAllowRule] = false :=
  ⟨by decide, by decide,
    c1_rule_list_evaluation.2 platLinux [winAllowRule] (by decide) (by decide),
    by decide⟩

theorem applyFeature_false (f : String) (r : Bool) :
    applyFeature false f r = false := by
  unfold applyFeature
  split <;> simp

theorem foldl_applyFeature_false :
    ∀ fs : List (String × Bool),
      fs.foldl (fun acc p => applyFeature acc p.1 p.2) false = false := by
  intro fs
  induction fs with
  | nil => rfl
  | cons p ps ih => simp [List.foldl_cons, applyFeature_false, ih]

theorem applyFeature_required_true (f : String) (hf : f ∈ recognizedFeatures)
    (acc : Bool) : applyFeature acc f true = false := by
  simp only [recognizedFeatures, List.mem_cons, List.not_mem_nil,
    or_false] at hf
  rcases hf with rfl | rfl | rfl | rfl | rfl | rfl <;> simp [applyFeature]

theorem foldl_features_required_true (f : String)
    (hf : f ∈ recognizedFeatures) :
    ∀ fs : List (String × Bool), (f, true) ∈ fs →
      ∀ acc : Bool,
        fs.foldl (fun acc p => applyFeature acc p.1 p.2) acc = false := by
  intro fs
  induction fs with
  | nil => intro hmem; exact absurd hmem (List.not_mem_nil _)
  | cons p ps ih =>
    intro hmem acc
    rcases List.mem_cons.mp hmem with heq | hmem2
    · rw [List.foldl_cons, ← heq, applyFeature_required_true f hf acc]
      exact foldl_applyFeature_false ps
    · rw [List.foldl_cons]
      exact ih hmem2 _

/-- C2 counterexample: the features loop ignores feature keys outside the six
recognised ones, so a rule requiring the unrecognised feature
"bogus_feature" to be `true` still matches, and an allow rule carrying it
makes the whole evaluation return `true` — the claim predicts such a rule
never matches and the result falls through to `false`. -/
theorem c2_counterexample :
    bogusFeatureRule.features = some [("bogus_feature", true)] ∧
    ruleMatches platLinux bogusFeatureRule = true ∧
    should_apply_rule platLinux [bogusFeatureRule] = true :=
  ⟨rfl, rfl, rfl⟩

/-- C2 (amended): only the six recognised feature flags conjoin
`matches &= (required == false)` — a rule requiring a recognised feature to
be `true` never matches, while unrecognised feature keys leave the match
state unchanged — and `[{action: disallow, features: {is_demo_user: true}}]`
does not match, so the overall result is the default-deny `false`. -/
theorem c2_amended_feature_semantics :
    (∀ (plat : Platform) (rule : Rule) (fs : List (String × Bool)) (f : String),
      rule.features = some fs → (f, true) ∈ fs → f ∈ recognizedFeatures →
      ruleMatches plat rule = false) ∧
    (∀ (f : String) (acc required : Bool), f ∉ recognizedFeatures →
      applyFeature acc f required = acc) ∧
    (∀ plat : Platform, should_apply_rule plat [demoDisallowRule] = false) := by
  refine ⟨?_, ?_, fun _ => rfl⟩
  · intro plat rule fs f hfeat hmem hrec
    unfold ruleMatches
    rw [hfeat]
    exact foldl_features_required_true f hrec fs hmem _
  · intro f acc required hf
    unfold applyFeature
    split
    · exact absurd (by simp [recognizedFeatures]) hf
    · exact absurd (by simp [recognizedFeatures]) hf
    · exact absurd (by simp [recognizedFeatures]) hf
    · exact absurd (by simp [recognizedFeatures]) hf
    · exact absurd (by simp [recognizedFeatures]) hf
    · exact absurd (by simp [recognizedFeatures]) hf
    · rfl

/-- Witness for the amended C2 at a concrete input: the demo-user disallow
rule does not match. -/
theorem c2_amended_feature_semantics_witness :
    demoDisallowRule.features = some [("is_demo_user", true)] ∧
    (("is_demo_user", true) ∈ [("is_demo_user", true)]) ∧
    ("is_demo_user" ∈ recognizedFeatures) ∧
    ruleMatches platLinux demoDisallowRule = false :=
  ⟨rfl, by decide, by decide,
    c2_amended_feature_semantics.1 platLinux demoDisallowRule
      [("is_demo_user", true)] "is_demo_user" rfl (by decide) (by decide)⟩

/-! ### C3: per-item retry with backoff -/

/-- C3: an asset download is attempted at most 3 times; a first-attempt
success makes no further attempts and sleeps no delay; a failure before a
success on attempt 2 (resp. 3) sleeps 100ms (resp. 100ms then 200ms); an
item failing twice then succeeding on attempt 3 ends in success and is
counted as downloaded; an item failing all 3 attempts ends in the third
error and contributes exactly one entry to the failure list. -/
theorem c3_asset_retry :
    (∀ outcome : Nat → Except String Unit,
      (download_asset_retries outcome).2.1.length ≤ 3) ∧
    (∀ outcome : Nat → Except String Unit, outcome 1 = Except.ok () →
      download_asset_retries outcome = (Except.ok (), [1], []) ∧
      ∀ acc : Nat × List String,
        processAssetItem acc (download_asset_retries outcome).1
          = (acc.1 + 1, acc.2)) ∧
    (∀ (outcome : Nat → Except String Unit) (e : String),
      outcome 1 = Except.error e → outcome 2 = Except.ok () →
      download_asset_retries outcome = (Except.ok (), [1, 2], [100])) ∧
    (∀ (outcome : Nat → Except String Unit) (e1 e2 : String),
      outcome 1 = Except.error e1 → outcome 2 = Except.error e2 →
      outcome 3 = Except.ok () →
      download_asset_retries outcome = (Except.ok (), [1, 2, 3], [100, 200]) ∧
      ∀ acc : Nat × List String,
        processAssetItem acc (download_asset_retries outcome).1
          = (acc.1 + 1, acc.2)) ∧
    (∀ (outcome : Nat → Except String Unit) (e1 e2 e3 : String),
      outcome 1 = Except.error e1 → outcome 2 = Except.error e2 →
      outcome 3 = Except.error e3 →
      download_asset_retries outcome
          = (Except.error e3, [1, 2, 3], [100, 200]) ∧
      ∀ acc : Nat × List String,
        processAssetItem acc (download_asset_retries outcome).1
          = (acc.1, acc.2 ++ [e3])) := by
  refine ⟨?_, ?_, ?_, ?_, ?_⟩
  · intro outcome
    cases h1 : outcome 1 with
    | ok u => simp [download_asset_retries, retryGo, h1]
    | error e1 =>
      cases h2 : outcome 2 with
      | ok u => simp [download_asset_retries, retryGo, h1, h2]
      | error e2 =>
        cases h3 : outcome 3 with
        | ok u => simp [download_asset_retries, retryGo, h1, h2, h3]
        | error e3 => simp [download_asset_retries, retryGo, h1, h2, h3]
  · intro outcome h1
    have hd : download_asset_retries outcome = (Except.ok (), [1], []) := by
      simp [download_asset_retries, retryGo, h1]
    exact ⟨hd, fun acc => by rw [hd]; rfl⟩
  · intro outcome e h1 h2
    simp [download_asset_retries, retryGo, h1, h2]
  · intro outcome e1 e2 h1 h2 h3
    have hd : download_asset_retries outcome
        = (Except.ok (), [1, 2, 3], [100, 200]) := by
      simp [download_asset_retries, retryGo, h1, h2, h3]
    exact ⟨hd, fun acc => by rw [hd]; rfl⟩
  · intro outcome e1 e2 e3 h1 h2 h3
    have hd : download_asset_retries outcome
        = (Except.error e3, [1, 2, 3], [100, 200]) := by
      simp [download_asset_retries, retryGo, h1, h2, h3]
    exact ⟨hd, fun acc => by rw [hd]; rfl⟩

/-- Witness for C3 at concrete outcome functions: one source failing twice
then succeeding, and one failing all three attempts. -/
theorem c3_asset_retry_witness :
    outcomeFailTwice 1 = Except.error "f1" ∧
    outcomeFailTwice 2 = Except.error "f2" ∧
    outcomeFailTwice 3 = Except.ok () ∧
    download_asset_retries outcomeFailTwice
      = (Except.ok (), [1, 2, 3], [100, 200]) ∧
    processAssetItem (0, []) (download_asset_retries outcomeFailTwice).1
      = (1, []) ∧
    outcomeAllFail 3 = Except.error "f3" ∧
    download_asset_retries outcomeAllFail
      = (Except.error "f3", [1, 2, 3], [100, 200]) ∧
    processAssetItem (0, []) (download_asset_retries outcomeAllFail).1
      = (0, ["f3"]) := by
  have hok := c3_asset_retry.2.2.2.1 outcomeFailTwice "f1" "f2" rfl rfl rfl
  have hfail := c3_asset_retry.2.2.2.2 outcomeAllFail "f1" "f2" "f3" rfl rfl rfl
  exact ⟨rfl, rfl, rfl, hok.1, hok.2 (0, []), rfl, hfail.1, hfail.2 (0, [])⟩

/-! ### C4: aggregated failure digest -/

/-- C4: when any asset failed, `ensure_assets` fails with a message carrying
the total failure count, the first 10 failure messages verbatim (each on a
"\n  "-prefixed line), and — exactly when more than 10 failed — a suffix
noting how many more errors there were. -/
theorem c4_failure_digest :
    ∀ failed : List String, failed ≠ [] →
      assetAggregateResult failed = Except.error
        ((Nat.repr failed.length ++ " assets failed to download. First "
            ++ Nat.repr (min 10 failed.length) ++ " errors:")
          ++ strConcat ((failed.take 10).map (fun e => "\n  " ++ e))
          ++ (if failed.length > 10 then
                "\n  ... and " ++ Nat.repr (failed.length - 10)
                  ++ " more errors"
              else "")) := by
  intro failed hne
  unfold assetAggregateResult
  rw [if_neg (by simpa using hne)]
  simp only [formatAssetFailures]
  rw [foldl_strAppend "\n  " (failed.take 10), List.length_take]
  by_cases h : failed.length > 10
  · rw [if_pos h, if_pos h]
    simp only [strAppend_assoc]
  · rw [if_neg h, if_neg h, String.append_empty]

/-- Witness for C4 at 15 concrete failing items: the first 10 messages and a
"... and 5 more errors" suffix. -/
theorem c4_failure_digest_witness :
    failed15 ≠ [] ∧
    assetAggregateResult failed15 = Except.error
      "15 assets failed to download. First 10 errors:\n  m0\n  m1\n  m2\n  m3\n  m4\n  m5\n  m6\n  m7\n  m8\n  m9\n  ... and 5 more errors" := by
  refine ⟨by decide, ?_⟩
  rw [c4_failure_digest failed15 (by decide)]
  rfl

/-! ### C5: placeholder substitution -/

/-- C5: `process_game_argument` substitutes every documented placeholder with
its context-derived or fixed value, falls back to the documented defaults
("Player", the zero UUID, "token") when username/uuid/access token are
absent, falls back to the modpack version for the asset index name, and is a
total function (it never produces an error). -/
theorem c5_placeholder_substitution :
    process_game_argument optsSteve mpk1201 "m" (some "5")
        "${auth_player_name} ${version_name}" = "Steve 1.20.1" ∧
    process_game_argument optsDefaults mpk1201 "m" (some "5")
        "${auth_player_name}" = "Player" ∧
    process_game_argument optsDefaults mpk1201 "m" (some "5")
        "${auth_uuid}" = "00000000-0000-0000-0000-000000000000" ∧
    process_game_argument optsDefaults mpk1201 "m" (some "5")
        "${auth_access_token}" = "token" ∧
    process_game_argument optsDefaults mpk1201 "m" (some "5")
        "${version_name}" = "1.20.1" ∧
    process_game_argument optsDefaults mpk1201 "m" (some "5")
        "${game_directory}" = "gd" ∧
    process_game_argument optsDefaults mpk1201 "m" (some "5")
        "${assets_root}" = "m/assets" ∧
    process_game_argument optsDefaults mpk1201 "m" (some "5")
        "${assets_index_name}" = "5" ∧
    process_game_argument optsDefaults mpk1201 "m" none
        "${assets_index_name}" = "1.20.1" ∧
    process_game_argument optsDefaults mpk1201 "m" (some "5")
        "${clientid}" = "clientid" ∧
    process_game_argument optsDefaults mpk1201 "m" (some "5")
        "${auth_xuid}" = "xuid" ∧
    process_game_argument optsDefaults mpk1201 "m" (some "5")
        "${user_type}" = "msa" ∧
    process_game_argument optsDefaults mpk1201 "m" (some "5")
        "${version_type}" = "release" ∧
    process_game_argument optsDefaults mpk1201 "m" (some "5")
        "${resolution_width}" = "1280" ∧
    process_game_argument optsDefaults mpk1201 "m" (some "5")
        "${resolution_height}" = "720" ∧
    process_game_argument optsCustomRes mpk1201 "m" (some "5")
        "${resolution_width}x${resolution_height}" = "1920x1080" ∧
    process_game_argument optsDefaults mpk1201 "m" (some "5")
        "${natives_directory}" = "gd/natives" := by
  exact ⟨rfl, rfl, rfl, rfl, rfl, rfl, rfl, rfl, rfl, rfl, rfl, rfl, rfl,
    rfl, rfl, rfl, rfl⟩

/-! ### C6: classpath assembly -/

/-- C6: the classpath starts with the version's own client jar, then exactly
the rule-passing library artifact paths that exist on disk in manifest
order, joined with ";" on Windows and ":" on other platforms; concretely,
libraries "a.jar" and "b.jar" after client jar of version "v" join on the
semicolon platform into "...v.jar;...a.jar;...b.jar". -/
theorem c6_classpath_assembly :
    (∀ (plat : Platform) (ex : String → Bool) (dir : String)
        (vd : VersionDetails),
      build_classpath plat ex dir vd =
        joinSep (if plat.os == "windows" then ";" else ":")
          (pathJoin (pathJoin (pathJoin dir "versions") vd.id)
              (vd.id ++ ".jar")
            :: vd.libraries.filterMap (classpathEntry plat ex dir))) ∧
    build_classpath platWindows (fun _ => true) "m" vdTwoLibs
      = "m/versions/v/v.jar;m/libraries/a.jar;m/libraries/b.jar" := by
  constructor
  · intro plat ex dir vd
    simp only [build_classpath]
    rw [foldl_append_toList (classpathEntry plat ex dir) vd.libraries,
      List.singleton_append]
  · rfl

/-! ### C7: native library selection and extraction -/

/-- C7 counterexample: for a library whose natives-map value ("nkey") differs
from its classifier artifact's own `path` field ("org/lwjgl/real.jar"), the
archive path computed by `ensure_native_libraries` is
`libraries/<natives-map value>` and not the classifier artifact's path, so
the opened archive is not located at the path of the selected classifier
artifact. -/
theorem c7_native_path_counterexample :
    libC7.natives = some [("natives-linux", "nkey")] ∧
    libC7.downloads
      = some { artifact := none, classifiers := some [("nkey", artC7)] } ∧
    artC7.path = some "org/lwjgl/real.jar" ∧
    nativeArchivePath platLinux "m" libC7 = some "m/libraries/nkey" ∧
    ¬ nativeArchivePath platLinux "m" libC7
        = some (pathJoin (pathJoin "m" "libraries") "org/lwjgl/real.jar") := by
  decide

/-- C7 (amended): the archive opened for a rule-passing library with a
platform natives entry and a matching classifier entry is located at
`libraries/<natives-map value>` (the classifier key string, not the
classifier artifact's `path`); extraction writes out exactly the archive
entries ending in ".dll", ".so" or ".dylib", each under its base filename
with path components stripped, so "sub/dir/libfoo.so" lands at
natives/libfoo.so and "readme.txt" is not extracted. -/
theorem c7_amended_native_extraction :
    (∀ (plat : Platform) (dir : String) (lib : Library)
        (natives : List (String × String)) (key np : String)
        (dl : LibraryDownloads) (cls : List (String × Artifact))
        (art : Artifact),
      should_include_library plat lib = true →
      lib.natives = some natives →
      platformNativesKey plat = some key →
      alookup natives key = some np →
      lib.downloads = some dl →
      dl.classifiers = some cls →
      alookup cls np = some art →
      nativeArchivePath plat dir lib
        = some (pathJoin (pathJoin dir "libraries") np)) ∧
    (∀ (entries : List String) (ndir : String),
      extract_native_library entries ndir =
        (entries.filter (fun n => rustEndsWith n ".dll"
            || rustEndsWith n ".so" || rustEndsWith n ".dylib")).map
          (fun n => pathJoin ndir (lastPathComponent n))) ∧
    extract_native_library ["sub/dir/libfoo.so", "readme.txt"] "n"
      = ["n/libfoo.so"] := by
  refine ⟨?_, ?_, by decide⟩
  · intro plat dir lib natives key np dl cls art hinc hnat hkey hnp hdl hcls hart
    simp only [nativeArchivePath, hinc, hnat, hkey, hnp, hdl, hcls, hart,
      if_true]
  · intro entries ndir
    unfold extract_native_library
    rw [foldl_appendIf
      (fun file_path => rustEndsWith file_path ".dll"
        || rustEndsWith file_path ".so" || rustEndsWith file_path ".dylib")
      (fun file_path => pathJoin ndir (lastPathComponent file_path))
      entries []]
    rw [List.nil_append]

/-- Witness for the amended C7 at the concrete library fixture. -/
theorem c7_amended_native_extraction_witness :
    should_include_library platLinux libC7 = true ∧
    libC7.natives = some [("natives-linux", "nkey")] ∧
    platformNativesKey platLinux = some "natives-linux" ∧
    alookup [("natives-linux", "nkey")] "natives-linux" = some "nkey" ∧
    libC7.downloads
      = some { artifact := none, classifiers := some [("nkey", artC7)] } ∧
    alookup [("nkey", artC7)] "nkey" = some artC7 ∧
    nativeArchivePath platLinux "m" libC7
      = some (pathJoin (pathJoin "m" "libraries") "nkey") :=
  ⟨rfl, rfl, rfl, rfl, rfl, rfl,
    c7_amended_native_extraction.1 platLinux "m" libC7
      [("natives-linux", "nkey")] "natives-linux" "nkey"
      { artifact := none, classifiers := some [("nkey", artC7)] }
      [("nkey", artC7)] artC7 rfl rfl rfl rfl rfl rfl rfl⟩

/-! ### C8: JVM tail arguments -/

/-- Recogniser for a `-Djava.library.path` entry. -/
def isLibraryPathArg (s : String) : Bool :=
  List.isPrefixOf "-Djava.library.path=".data s.data

/-- C8 counterexample: on a minimal version description the JVM argument
builder appends TWO `-Djava.library.path` entries (the first pointing at the
libraries directory alone, the second at the combined libraries;natives
path), not exactly one. -/
theorem c8_library_path_counterexample :
    ((add_jvm_arguments platLinux (fun _ => false) "m" vdBase
        optsSteve).filter isLibraryPathArg).length = 2 ∧
    ¬ ((add_jvm_arguments platLinux (fun _ => false) "m" vdBase
        optsSteve).filter isLibraryPathArg).length = 1 ∧
    add_jvm_arguments platLinux (fun _ => false) "m" vdBase optsSteve
      = ["-Djava.library.path=m/libraries",
         "-Djava.library.path=m/libraries;gd/natives",
         "-cp", "m/versions/v/v.jar"] := by
  decide

/-- The memory flags emitted at the start of `add_jvm_arguments`. -/
def memoryArgs (opts : LaunchOptions) : List String :=
  (match opts.max_memory with
   | some m => ["-Xmx" ++ Nat.repr m ++ "M"]
   | none => []) ++
  (match opts.min_memory with
   | some m => ["-Xms" ++ Nat.repr m ++ "M"]
   | none => [])

/-- The version-supplied JVM arguments emitted by `add_jvm_arguments`. -/
def versionJvmArgs (plat : Platform) (opts : LaunchOptions)
    (vd : VersionDetails) : List String :=
  match vd.arguments with
  | some a => a.jvm.flatMap (jvmArgStrings plat opts)
  | none => []

/-- C8 (amended): after the memory flags and the version-supplied JVM
arguments, the builder always appends exactly these four final entries in
order: a `-Djava.library.path` entry for the libraries directory, a second
`-Djava.library.path` entry for the combined libraries;natives path, then
`-cp` followed by the classpath. -/
theorem c8_amended_jvm_tail :
    ∀ (plat : Platform) (ex : String → Bool) (dir : String)
      (vd : VersionDetails) (opts : LaunchOptions),
      add_jvm_arguments plat ex dir vd opts =
        memoryArgs opts ++ versionJvmArgs plat opts vd ++
        ["-Djava.library.path=" ++ pathJoin dir "libraries",
         "-Djava.library.path=" ++ pathJoin dir "libraries" ++ ";"
           ++ pathJoin opts.game_dir "natives",
         "-cp", build_classpath plat ex dir vd] := by
  intro plat ex dir vd opts
  simp only [add_jvm_arguments, memoryArgs, versionJvmArgs]
  cases hmax : opts.max_memory <;> cases hmin : opts.min_memory <;>
    cases harg : vd.arguments <;>
    simp [foldl_appendList (jvmArgStrings plat opts), List.append_assoc]

/-! ### C9: zero-work idempotency -/

/-- C9: when every computed target path already exists on disk, the asset
engine finds an empty missing-work list and returns success immediately with
zero download attempts, and the library engine downloads nothing. -/
theorem c9_zero_work_idempotency :
    (∀ (ex : String → Bool) (dir : String)
        (objects : List (String × String))
        (outcome : String → Nat → Except String Unit),
      (∀ p ∈ objects, ex (assetObjectPath dir p.2) = true) →
      missingAssets ex dir objects = [] ∧
      ensure_assets_model ex dir objects outcome = ([], Except.ok ())) ∧
    (∀ (plat : Platform) (ex : String → Bool) (dir : String)
        (libs : List Library),
      (∀ lib ∈ libs, ∀ (dl : LibraryDownloads) (art : Artifact) (p : String),
        lib.downloads = some dl → dl.artifact = some art →
        art.path = some p →
        ex (pathJoin (pathJoin dir "libraries") p) = true) →
      libraryMissingDownloads plat ex dir libs = []) := by
  constructor
  · intro ex dir objects outcome h
    have hmiss : missingAssets ex dir objects = [] := by
      unfold missingAssets
      apply foldl_step_const
      intro acc p hp
      simp [h p hp]
    refine ⟨hmiss, ?_⟩
    simp only [ensure_assets_model, hmiss]
    rfl
  · intro plat ex dir libs h
    have hurl : ∀ lib ∈ libs, libraryMissingUrl plat ex dir lib = none := by
      intro lib hlib
      have hl := h lib hlib
      cases hinc : should_include_library plat lib with
      | false => simp [libraryMissingUrl, hinc]
      | true =>
        cases hdl : lib.downloads with
        | none => simp [libraryMissingUrl, hinc, hdl]
        | some dl =>
          cases hart : dl.artifact with
          | none => simp [libraryMissingUrl, hinc, hdl, hart]
          | some art =>
            cases hp : art.path with
            | none => simp [libraryMissingUrl, hinc, hdl, hart, hp]
            | some p =>
              simp [libraryMissingUrl, hinc, hdl, hart, hp,
                hl dl art p hdl hart hp]
    unfold libraryMissingDownloads
    rw [foldl_append_toList (libraryMissingUrl plat ex dir) libs,
      List.nil_append]
    rw [List.filterMap_eq_nil_iff]
    exact hurl

/-- Witness for C9 at a concrete one-asset index and two-library list with an
all-present filesystem. -/
theorem c9_zero_work_idempotency_witness :
    missingAssets (fun _ => true) "m" [("icons/a.png", "ab12")] = [] ∧
    ensure_assets_model (fun _ => true) "m" [("icons/a.png", "ab12")]
      (fun _ _ => Except.ok ()) = ([], Except.ok ()) ∧
    libraryMissingDownloads platLinux (fun _ => true) "m" [libA, libB]
      = [] := by
  have hmain := c9_zero_work_idempotency.1 (fun _ => true) "m"
    [("icons/a.png", "ab12")] (fun _ _ => Except.ok ())
    (fun p _ => rfl)
  refine ⟨hmain.1, hmain.2, ?_⟩
  exact c9_zero_work_idempotency.2 platLinux (fun _ => true) "m" [libA, libB]
    (fun lib _ dl art p _ _ _ => rfl)

/-! ### C10: missing Java path -/

/-- C10: with no configured Java path, `build_launch_command` fails with
"Java path is required" — even though `verify_java` falls back to the bare
executable name "java" — so the launch sequence errors out before any
process is spawned. -/
theorem c10_missing_java_path :
    (∀ (plat : Platform) (ex : String → Bool) (dir : String)
        (opts : LaunchOptions) (modpack : Modpack) (vd : VersionDetails)
        (assetIndexId : Option String),
      opts.java_path = none →
      build_launch_command plat ex dir opts modpack vd assetIndexId
        = Except.error "Java path is required") ∧
    verify_java_program none = "java" := by
  refine ⟨?_, rfl⟩
  intro plat ex dir opts modpack vd aid h
  unfold build_launch_command
  rw [h]

/-- Witness for C10 at concrete launch options with no Java path. -/
theorem c10_missing_java_path_witness :
    optsSteve.java_path = none ∧
    build_launch_command platLinux (fun _ => false) "m" optsSteve mpk1201
      vdBase none = Except.error "Java path is required" :=
  ⟨rfl, c10_missing_java_path.1 platLinux (fun _ => false) "m" optsSteve
    mpk1201 vdBase none rfl⟩

end Wise0wl
